import Mathlib

/-!
Verification of the flux science helper scripts against their specification.

The repository is five Python command-line helpers (stats_helper, ml_helper,
export_helper, analyze_helper, visualize_helper).  Each reads one JSON request
from standard input, dispatches on a string discriminator to a handler, and
prints one JSON response.  This file shallowly embeds the routing logic, the
closed-form numeric computations (effect sizes, ANOVA sums of squares), the
in-process model registry of the ML helper, and the transform pipeline of the
analyze helper.  Library calls (scipy, sklearn, pandas, matplotlib) are
abstracted as parameters: the embedding keeps exactly the control flow and
arithmetic that the repository itself contributes.

Python floats are modelled as rationals; Python dicts with string keys as
association lists with unique keys; raised exceptions as `Except String`.
-/

/-- A JSON response as far as the routing layer is concerned: the `success`
flag and the optional `error` message.  (The analyze and visualize helpers
additionally attach a `traceback` field to error responses; that field is
not modelled.) -/
structure Resp where
  success : Bool
  error : Option String := none
  deriving Repr, DecidableEq

/-- Python dict lookup `d.get(k)` on an association list with unique keys. -/
def dictGet {α : Type} : List (String × α) → String → Option α
  | [], _ => none
  | (k₁, v₁) :: rest, k => if k₁ = k then some v₁ else dictGet rest k

/-- Python dict assignment `d[k] = v` on an association list with unique keys:
replaces the binding in place if the key exists, otherwise appends. -/
def dictSet {α : Type} : List (String × α) → String → α → List (String × α)
  | [], k, v => [(k, v)]
  | (k₁, v₁) :: rest, k, v =>
    if k₁ = k then (k, v) :: rest else (k₁, v₁) :: dictSet rest k v

namespace StatsHelper

/-- `interpret_cohens_d` from stats_helper.py: bucket a standardized mean
difference by its absolute value with strict upper bounds 0.2, 0.5, 0.8. -/
def interpret_cohens_d (d : ℚ) : String :=
  let abs_d := |d|
  if abs_d < 2/10 then "negligible"
  else if abs_d < 5/10 then "small"
  else if abs_d < 8/10 then "medium"
  else "large"

/-- `interpret_correlation` from stats_helper.py: three buckets keyed on the
absolute correlation coefficient. -/
def interpret_correlation (r : ℚ) : String :=
  let abs_r := |r|
  if abs_r < 3/10 then "weak"
  else if abs_r < 7/10 then "moderate"
  else "strong"

/-- `interpret_cramers_v` from stats_helper.py. -/
def interpret_cramers_v (v : ℚ) : String :=
  if v < 1/10 then "negligible"
  else if v < 3/10 then "small"
  else if v < 5/10 then "medium"
  else "large"

/-- `interpret_rank_biserial` from stats_helper.py. -/
def interpret_rank_biserial (r : ℚ) : String :=
  let abs_r := |r|
  if abs_r < 2/10 then "negligible"
  else if abs_r < 5/10 then "small"
  else if abs_r < 8/10 then "medium"
  else "large"

/-- The inline eta-squared interpretation in `anova` (stats_helper.py line
178): `'small' if eta_squared < 0.06 else ('medium' if eta_squared < 0.14
else 'large')`. -/
def anovaEtaInterp (eta : ℚ) : String :=
  if eta < 6/100 then "small" else if eta < 14/100 then "medium" else "large"

/-- `np.mean` on a list of numbers: sum divided by length.  (On an empty
list numpy yields NaN; all uses below are on nonempty lists.) -/
def mean (l : List ℚ) : ℚ := l.sum / l.length

/-- The between-group sum of squares computed in `anova`:
`sum(len(g) * (np.mean(g) - grand_mean) ** 2 for g in groups)`. -/
def ss_between (groups : List (List ℚ)) (gm : ℚ) : ℚ :=
  (groups.map (fun g => (g.length : ℚ) * (mean g - gm) ^ 2)).sum

/-- The total sum of squares computed in `anova`:
`sum(sum((x - grand_mean) ** 2 for x in g) for g in groups)`. -/
def ss_total (groups : List (List ℚ)) (gm : ℚ) : ℚ :=
  (groups.map (fun g => (g.map (fun x => (x - gm) ^ 2)).sum)).sum

/-- The shape of the ANOVA response.  `statistic` and `pvalue` come from
`scipy.stats.f_oneway`, which the embedding abstracts as a parameter. -/
structure AnovaResp where
  test : String
  statistic : ℚ
  pvalue : ℚ
  df_between : Int
  df_within : Int
  eta_squared : ℚ
  eta_interpretation : String
  success : Bool
  deriving Repr, DecidableEq

/-- The body of the `anova` handler in stats_helper.py, with
`scipy.stats.f_oneway` abstracted as `fOneway` (returning the pair of the F
statistic and the p-value). -/
def anova (fOneway : List (List ℚ) → ℚ × ℚ) (groups : List (List ℚ)) : AnovaResp :=
  let gm := mean groups.flatten
  let ssb := ss_between groups gm
  let sst := ss_total groups gm
  let eta := if 0 < sst then ssb / sst else 0
  { test := "ANOVA"
    statistic := (fOneway groups).1
    pvalue := (fOneway groups).2
    df_between := (groups.length : Int) - 1
    df_within := ((groups.map List.length).sum : Int) - (groups.length : Int)
    eta_squared := eta
    eta_interpretation := anovaEtaInterp eta
    success := true }

/-- The handler tags of stats_helper.py, one per `elif` branch of `main`. -/
inductive Tag where
  | ttest | anova | chi_square | correlation | regression | mann_whitney
  deriving DecidableEq, Repr

/-- The discriminator dispatch in `main` of stats_helper.py (lines 298-314):
the `if`/`elif` chain on `input_data.get('test')`. -/
def route (t : String) : Option Tag :=
  if t = "ttest" then some .ttest
  else if t = "anova" then some .anova
  else if t = "chi_square" then some .chi_square
  else if t = "correlation" then some .correlation
  else if t = "regression" then some .regression
  else if t = "mann_whitney" then some .mann_whitney
  else none

/-- The list of handlers `main` invokes for a given discriminator: the
`if`/`elif` chain calls the matched handler once, or none on the `else`
branch. -/
def callsOf (t : String) : List Tag := (route t).toList

/-- Each handler of stats_helper.py wraps its whole body in
`try ... except Exception as e: return {'success': False, 'error': str(e)}`;
a raised exception therefore becomes an error response returned by the
handler itself. -/
def handlerRun (body : Except String Resp) : Resp :=
  match body with
  | .ok r => r
  | .error e => { success := false, error := some e }

/-- `main` of stats_helper.py as a function from the parse outcome of stdin
and the handler bodies to the printed response and the process exit code.
A parse failure hits the top-level catch and exits 1; otherwise the routed
handler result (or the unknown-discriminator error response) is printed and
the process falls off the end of `main`, exiting 0. -/
def run (bodies : Tag → Except String Resp) (input : Except String String) :
    Resp × Nat :=
  match input with
  | .error e => ({ success := false, error := some e }, 1)
  | .ok t =>
    match route t with
    | some h => (handlerRun (bodies h), 0)
    | none => ({ success := false, error := some ("Unknown test type: " ++ t) }, 0)

end StatsHelper

namespace MlHelper

/-- The handler tags of ml_helper.py, one per `elif` branch of `main`. -/
inductive Tag where
  | train | predict | evaluate | tune | explain | save | load
  deriving DecidableEq, Repr

/-- The discriminator dispatch in `main` of ml_helper.py (lines 450-468):
the `if`/`elif` chain on `input_data.get('action')`. -/
def route (a : String) : Option Tag :=
  if a = "train" then some .train
  else if a = "predict" then some .predict
  else if a = "evaluate" then some .evaluate
  else if a = "tune" then some .tune
  else if a = "explain" then some .explain
  else if a = "save" then some .save
  else if a = "load" then some .load
  else none

/-- The list of handlers `main` of ml_helper.py invokes for a discriminator. -/
def callsOf (a : String) : List Tag := (route a).toList

/-- `main` of ml_helper.py, same structure as the stats helper: every handler
catches its own exceptions and returns an error dict, so the handler path
always exits 0; only a failure before dispatch (stdin parse) exits 1. -/
def run (bodies : Tag → Except String Resp) (input : Except String String) :
    Resp × Nat :=
  match input with
  | .error e => ({ success := false, error := some e }, 1)
  | .ok a =>
    match route a with
    | some h => (StatsHelper.handlerRun (bodies h), 0)
    | none => ({ success := false, error := some ("Unknown action: " ++ a) }, 0)

end MlHelper

namespace ExportHelper

/-- The handler tags of export_helper.py, one per `elif` branch of `main`. -/
inductive Tag where
  | data | html | pdf | notebook
  deriving DecidableEq, Repr

/-- The discriminator dispatch in `main` of export_helper.py (lines 423-435):
the `if`/`elif` chain on `input_data.get('type')`. -/
def route (t : String) : Option Tag :=
  if t = "data" then some .data
  else if t = "html" then some .html
  else if t = "pdf" then some .pdf
  else if t = "notebook" then some .notebook
  else none

/-- `main` of export_helper.py, same structure as the stats helper: handlers
catch their own exceptions and return error dicts, handler path exits 0. -/
def run (bodies : Tag → Except String Resp) (input : Except String String) :
    Resp × Nat :=
  match input with
  | .error e => ({ success := false, error := some e }, 1)
  | .ok t =>
    match route t with
    | some h => (StatsHelper.handlerRun (bodies h), 0)
    | none => ({ success := false, error := some ("Unknown export type: " ++ t) }, 0)

end ExportHelper

namespace AnalyzeHelper

/-- The action tags of analyze_helper.py, one per `elif` branch of `main`. -/
inductive Tag where
  | load | describe | transform | query | execute
  deriving DecidableEq, Repr

/-- The discriminator dispatch in `main` of analyze_helper.py (lines
267-353): the `if`/`elif` chain on `input_data.get('action')`. -/
def route (a : String) : Option Tag :=
  if a = "load" then some .load
  else if a = "describe" then some .describe
  else if a = "transform" then some .transform
  else if a = "query" then some .query
  else if a = "execute" then some .execute
  else none

/-- `main` of analyze_helper.py.  Unlike the stats/ml/export helpers, its
handlers (`load_data`, `transform_data`, ...) raise; the single top-level
`except` prints `{'success': False, 'error': str(e), 'traceback': ...}` and
calls `sys.exit(1)`.  The unknown-action branch also exits 1 here (line
353). -/
def run (bodies : Tag → Except String Resp) (input : Except String String) :
    Resp × Nat :=
  match input with
  | .error e => ({ success := false, error := some e }, 1)
  | .ok a =>
    match route a with
    | some h =>
      match bodies h with
      | .ok r => (r, 0)
      | .error e => ({ success := false, error := some e }, 1)
    | none => ({ success := false, error := some ("Unknown action: " ++ a) }, 1)

end AnalyzeHelper

namespace MlHelper

/-- A numeric feature matrix (`np.array(data['X'])`), rows of rationals. -/
abbrev Mat := List (List ℚ)

/-- The payload read by `train` in ml_helper.py, with the source defaults. -/
structure TrainReq where
  X : Mat
  y : List ℚ
  algorithm : String
  task_type : String := "regression"
  model_id : String := "default_model"
  test_size : ℚ := 2/10
  params : List (String × String) := []
  scale : Bool := false
  deriving Repr, DecidableEq

/-- The metadata dict built by `train` (ml_helper.py lines 170-177). -/
structure Metadata where
  algorithm : String
  task_type : String
  n_features : Nat
  n_samples : Nat
  test_size : ℚ
  params : List (String × String)
  deriving Repr, DecidableEq

/-- `metadata = {'algorithm': ..., 'task_type': ..., 'n_features': X.shape[1],
'n_samples': X.shape[0], 'test_size': ..., 'params': ...}`. -/
def metadataOf (req : TrainReq) : Metadata :=
  { algorithm := req.algorithm
    task_type := req.task_type
    n_features := (req.X.headD []).length
    n_samples := req.X.length
    test_size := req.test_size
    params := req.params }

/-- The `ModelManager` registry of ml_helper.py: four dicts keyed by the model
identifier.  `M`, `S`, `E` are the types of the fitted model, scaler and
encoder objects produced by scikit-learn. -/
structure Manager (M S E : Type) where
  models : List (String × M) := []
  scalers : List (String × S) := []
  encoders : List (String × E) := []
  metadata : List (String × Metadata) := []
  deriving Repr

/-- `ModelManager.save_model`: the model is always stored; scaler, encoder and
metadata only when truthy (`if scaler: ...`).  `none` models a falsy
argument (Python `None`, or the empty metadata dict on the `load` path). -/
def save_model (mgr : Manager M S E) (model_id : String) (model : M)
    (scaler : Option S) (encoder : Option E) (meta : Option Metadata) :
    Manager M S E :=
  { models := dictSet mgr.models model_id model
    scalers :=
      match scaler with
      | some s => dictSet mgr.scalers model_id s
      | none => mgr.scalers
    encoders :=
      match encoder with
      | some e => dictSet mgr.encoders model_id e
      | none => mgr.encoders
    metadata :=
      match meta with
      | some m => dictSet mgr.metadata model_id m
      | none => mgr.metadata }

/-- The payload of `tune` in ml_helper.py, with the source defaults. -/
structure TuneReq where
  X : Mat
  y : List ℚ
  algorithm : String
  task_type : String := "regression"
  param_grid : List (String × List String) := []
  cv : Nat := 5
  scale : Bool := false
  deriving Repr, DecidableEq

/-- The scikit-learn calls that ml_helper.py delegates to.  The training
pipeline is deterministic (`random_state=42`), so each fitted artifact is a
function of the request alone. -/
structure Lib (M S E : Type) where
  fitModel : TrainReq → M
  fitScaler : TrainReq → S
  fitEncoder : TrainReq → E
  trainMetrics : TrainReq → List (String × ℚ)
  splitCounts : TrainReq → Nat × Nat
  featureImportance : M → Option (List ℚ)
  scalerTransform : S → Mat → Mat
  modelPredict : M → Mat → List ℚ
  encoderTransform : E → List ℚ → List ℚ
  encoderInverse : E → List ℚ → List ℚ
  predictProba : M → Mat → Option (List (List ℚ))
  metricsOf : String → List ℚ → List ℚ → List (String × ℚ)
  gridSearch : TuneReq → Except String (List (String × String) × ℚ)
  loadFile : String → Except String (M × Option S × Option E × Option Metadata)

/-- The success response of `train` (ml_helper.py lines 180-189). -/
structure TrainResp where
  success : Bool
  model_id : String
  algorithm : String
  task_type : String
  metrics : List (String × ℚ)
  feature_importance : Option (List ℚ)
  n_train : Nat
  n_test : Nat
  deriving Repr, DecidableEq

/-- The `train` handler: fit (optionally scaling features and encoding
labels), store everything under `model_id` via `save_model`, and report the
metrics of this training run. -/
def train (lib : Lib M S E) (mgr : Manager M S E) (req : TrainReq) :
    Manager M S E × TrainResp :=
  let scaler : Option S := if req.scale then some (lib.fitScaler req) else none
  let encoder : Option E :=
    if req.task_type = "classification" then some (lib.fitEncoder req) else none
  let model := lib.fitModel req
  let mgr₂ := save_model mgr req.model_id model scaler encoder (some (metadataOf req))
  (mgr₂,
    { success := true
      model_id := req.model_id
      algorithm := req.algorithm
      task_type := req.task_type
      metrics := lib.trainMetrics req
      feature_importance := lib.featureImportance model
      n_train := (lib.splitCounts req).1
      n_test := (lib.splitCounts req).2 })

/-- The payload of `predict` in ml_helper.py. -/
structure PredictReq where
  X : Mat
  model_id : String
  deriving Repr, DecidableEq

/-- The response of `predict` (ml_helper.py lines 204 and 225-230). -/
structure PredictResp where
  success : Bool
  error : Option String := none
  predictions : List ℚ := []
  probabilities : Option (List (List ℚ)) := none
  n_predictions : Nat := 0
  deriving Repr, DecidableEq

/-- The `predict` handler: fail when the identifier has no registry entry,
otherwise apply the stored scaler (if any), predict, and decode through the
stored encoder (if any). -/
def predict (lib : Lib M S E) (mgr : Manager M S E) (req : PredictReq) :
    PredictResp :=
  match dictGet mgr.models req.model_id with
  | none => { success := false, error := some ("Model not found: " ++ req.model_id) }
  | some model =>
    let X :=
      match dictGet mgr.scalers req.model_id with
      | some s => lib.scalerTransform s req.X
      | none => req.X
    let preds := lib.modelPredict model X
    let decoded :=
      match dictGet mgr.encoders req.model_id with
      | some e => lib.encoderInverse e preds
      | none => preds
    { success := true
      predictions := decoded
      probabilities := lib.predictProba model X
      n_predictions := decoded.length }

/-- The payload of `evaluate` in ml_helper.py. -/
structure EvalReq where
  X : Mat
  y : List ℚ
  model_id : String
  deriving Repr, DecidableEq

/-- The response of `evaluate` (ml_helper.py lines 246 and 284-288). -/
structure EvalResp where
  success : Bool
  error : Option String := none
  metrics : List (String × ℚ) := []
  n_samples : Nat := 0
  deriving Repr, DecidableEq

/-- The `evaluate` handler.  When the model exists but has no metadata entry,
`metadata.get('task_type', ...)` raises an AttributeError on `None`, which
the handler catch converts to an error response (the Python message quotes
the names; the quotes are elided here). -/
def evaluate (lib : Lib M S E) (mgr : Manager M S E) (req : EvalReq) : EvalResp :=
  match dictGet mgr.models req.model_id with
  | none => { success := false, error := some ("Model not found: " ++ req.model_id) }
  | some model =>
    match dictGet mgr.metadata req.model_id with
    | none =>
      { success := false
        error := some "AttributeError: NoneType object has no attribute get" }
    | some meta =>
      let X :=
        match dictGet mgr.scalers req.model_id with
        | some s => lib.scalerTransform s req.X
        | none => req.X
      let y :=
        match dictGet mgr.encoders req.model_id with
        | some e => lib.encoderTransform e req.y
        | none => req.y
      { success := true
        metrics := lib.metricsOf meta.task_type y (lib.modelPredict model X)
        n_samples := req.X.length }

/-- The response of `explain` (ml_helper.py lines 344 and 363-371).  The
`model_params` field (stringified scikit-learn parameters) is not modelled. -/
structure ExplainResp where
  success : Bool
  error : Option String := none
  model_id : String := ""
  algorithm : Option String := none
  task_type : Option String := none
  feature_importance : Option (List ℚ) := none
  deriving Repr, DecidableEq

/-- The `explain` handler; like `evaluate` it dereferences the metadata dict,
so a missing metadata entry raises and becomes an error response. -/
def explain (lib : Lib M S E) (mgr : Manager M S E) (model_id : String) :
    ExplainResp :=
  match dictGet mgr.models model_id with
  | none => { success := false, error := some ("Model not found: " ++ model_id) }
  | some model =>
    match dictGet mgr.metadata model_id with
    | none =>
      { success := false
        error := some "AttributeError: NoneType object has no attribute get" }
    | some meta =>
      { success := true
        model_id := model_id
        algorithm := some meta.algorithm
        task_type := some meta.task_type
        feature_importance := lib.featureImportance model }

/-- The response of `tune` (ml_helper.py lines 322-330); the per-candidate
`cv_results` arrays are not modelled. -/
structure TuneResp where
  success : Bool
  error : Option String := none
  best_params : List (String × String) := []
  best_score : ℚ := 0
  deriving Repr, DecidableEq

/-- The `tune` handler: a grid search over the data in the request.  It never
references `model_manager`; its whole body is request-local.  A raised
exception (grid search failure) is caught by the handler and returned as an
error response. -/
def tune (lib : Lib M S E) (req : TuneReq) : TuneResp :=
  match lib.gridSearch req with
  | .ok (p, s) => { success := true, best_params := p, best_score := s }
  | .error e => { success := false, error := some e }

/-- The response of `save_model_to_file` (ml_helper.py lines 385, 402-406). -/
structure SaveFileResp where
  success : Bool
  error : Option String := none
  filepath : String := ""
  model_id : String := ""
  deriving Repr, DecidableEq

/-- The `save` handler: read the registry entry (fail if absent) and pickle
it to `filepath`; the file write itself is outside the model. -/
def save_model_to_file (mgr : Manager M S E) (model_id filepath : String) :
    SaveFileResp :=
  match dictGet mgr.models model_id with
  | none => { success := false, error := some ("Model not found: " ++ model_id) }
  | some _ => { success := true, filepath := filepath, model_id := model_id }

/-- The payload of `load_model_from_file`, with the source default. -/
structure LoadReq where
  filepath : String
  model_id : String := "loaded_model"
  deriving Repr, DecidableEq

/-- The `load` handler: unpickle the artifacts (a failure to read the file is
an error response) and store them in the registry under `model_id`. -/
def load_model_from_file (lib : Lib M S E) (mgr : Manager M S E) (req : LoadReq) :
    Manager M S E × SaveFileResp :=
  match lib.loadFile req.filepath with
  | .error e => (mgr, { success := false, error := some e })
  | .ok (model, scaler, encoder, meta) =>
    (save_model mgr req.model_id model scaler encoder meta,
      { success := true, filepath := req.filepath, model_id := req.model_id })

/-- A routed ml_helper request together with its typed payload. -/
inductive Request where
  | trainR (r : TrainReq)
  | predictR (r : PredictReq)
  | evaluateR (r : EvalReq)
  | tuneR (r : TuneReq)
  | explainR (model_id : String)
  | saveR (model_id filepath : String)
  | loadR (r : LoadReq)
  deriving Repr, DecidableEq

/-- The typed responses of the seven handlers. -/
inductive Response where
  | trainO (r : TrainResp)
  | predictO (r : PredictResp)
  | evalO (r : EvalResp)
  | tuneO (r : TuneResp)
  | explainO (r : ExplainResp)
  | saveO (r : SaveFileResp)
  | loadO (r : SaveFileResp)
  deriving Repr, DecidableEq

/-- The action dispatch of `main` in ml_helper.py at the registry level: the
process state is the `model_manager`, each action maps it to a new state and
a response.  Only `train` and `load` write to the registry. -/
def applyAction (lib : Lib M S E) (mgr : Manager M S E) :
    Request → Manager M S E × Response
  | .trainR r =>
    let out := train lib mgr r
    (out.1, .trainO out.2)
  | .predictR r => (mgr, .predictO (predict lib mgr r))
  | .evaluateR r => (mgr, .evalO (evaluate lib mgr r))
  | .tuneR r => (mgr, .tuneO (tune lib r))
  | .explainR id => (mgr, .explainO (explain lib mgr id))
  | .saveR id fp => (mgr, .saveO (save_model_to_file mgr id fp))
  | .loadR r =>
    let out := load_model_from_file lib mgr r
    (out.1, .loadO out.2)

end MlHelper

namespace AnalyzeHelper

/-- The pandas operations that `transform_data` in analyze_helper.py delegates
to, abstracted over the dataframe type `T` and the scalar value type `V`.
Each field is one library call; the repository contributes only the dispatch
and sequencing around them. -/
structure PandasLib (T V : Type) where
  query : Option String → T → T
  selectCols : List String → T → T
  sortValues : List String → Bool → T → T
  groupbyAgg : List String → List (String × String) → T → T
  renameWith : List (String × String) → T → T
  dropColumns : List String → T → T
  dropIndex : List Nat → T → T
  fillnaValue : V → T → T
  fillnaMethod : String → T → T
  astype : List (String × String) → T → T

/-- One entry of the `transformations` list: the `operation` name plus the
operation-specific keys read with `transform.get(...)`.  The dynamically
typed dict key `columns` is split into `selCols` (a list, used by `select`),
`renMap` (a mapping, used by `rename`) and `dropCols` (used by `drop`, where
both a missing key and an empty list are falsy and skip the drop); likewise
`method` defaults to the empty string since both `None` and the empty string
are falsy in `elif method:`. -/
structure TStep (V : Type) where
  operation : String
  queryStr : Option String := none
  selCols : List String := []
  byCols : List String := []
  ascending : Bool := true
  aggSpec : List (String × String) := []
  renMap : List (String × String) := []
  dropCols : List String := []
  dropIdx : List Nat := []
  fillValue : Option V := none
  fillMethod : String := ""
  dtypes : List (String × String) := []
  deriving Repr, DecidableEq

/-- The eight operation names accepted by `transform_data`. -/
def supportedOps : List String :=
  ["filter", "select", "sort", "groupby", "rename", "drop", "fillna", "astype"]

/-- One iteration of the loop in `transform_data` (analyze_helper.py lines
120-174): dispatch on `operation`; an unrecognized name raises
`ValueError(f"Unsupported transformation: {operation}")`. -/
def applyTransform (lib : PandasLib T V) (d : T) (t : TStep V) : Except String T :=
  if t.operation = "filter" then .ok (lib.query t.queryStr d)
  else if t.operation = "select" then .ok (lib.selectCols t.selCols d)
  else if t.operation = "sort" then .ok (lib.sortValues t.byCols t.ascending d)
  else if t.operation = "groupby" then .ok (lib.groupbyAgg t.byCols t.aggSpec d)
  else if t.operation = "rename" then .ok (lib.renameWith t.renMap d)
  else if t.operation = "drop" then
    let d₁ := if t.dropCols.isEmpty then d else lib.dropColumns t.dropCols d
    let d₂ := if t.dropIdx.isEmpty then d₁ else lib.dropIndex t.dropIdx d₁
    .ok d₂
  else if t.operation = "fillna" then
    .ok
      (match t.fillValue with
       | some v => lib.fillnaValue v d
       | none => if t.fillMethod = "" then d else lib.fillnaMethod t.fillMethod d)
  else if t.operation = "astype" then .ok (lib.astype t.dtypes d)
  else .error ("Unsupported transformation: " ++ t.operation)

/-- `transform_data`: fold the steps over the table left to right, each step
operating on the previous step's output; the first raise aborts the request. -/
def transform_data (lib : PandasLib T V) (df : T) : List (TStep V) → Except String T
  | [] => .ok df
  | t :: rest =>
    match applyTransform lib df t with
    | .ok d => transform_data lib d rest
    | .error e => .error e

end AnalyzeHelper

namespace VisualizeHelper

/-- The matplotlib/seaborn/plotly/pandas calls that visualize_helper.py
delegates to: `T` is the dataframe type, `F` the matplotlib figure type, `C`
the type of the `config` mapping passed through to the chart builders. -/
structure VizLib (T F C : Type) where
  readCsv : String → T
  readJson : String → T
  readParquet : String → T
  fromRecords : String → T
  nrows : T → Nat
  ncols : T → Nat
  plotlyAvailable : Bool
  pxLine : T → C → String
  pxBar : T → C → String
  pxScatter : T → C → String
  pxHistogram : T → C → String
  createLine : T → C → F
  createBar : T → C → F
  createScatter : T → C → F
  createHistogram : T → C → F
  createHeatmap : T → C → F
  createBoxplot : T → C → F
  createCustom : T → String → F
  renderSvg : F → String

/-- `load_data` of visualize_helper.py: dispatch on `source_type`; the
unsupported-type `ValueError` is re-raised wrapped as
`RuntimeError(f"Failed to load data: {e}")`. -/
def load_data (lib : VizLib T F C) (source : String) (source_type : String) :
    Except String T :=
  if source_type = "csv" then .ok (lib.readCsv source)
  else if source_type = "json" then .ok (lib.readJson source)
  else if source_type = "parquet" then .ok (lib.readParquet source)
  else if source_type = "dict" then .ok (lib.fromRecords source)
  else if source_type = "memory" then .ok (lib.fromRecords source)
  else .error ("Failed to load data: Unsupported source type: " ++ source_type)

/-- `create_plotly_chart` of visualize_helper.py: raises when plotly is not
importable, then dispatches on the plotly chart type. -/
def create_plotly_chart (lib : VizLib T F C) (df : T) (chart_type : String)
    (cfg : C) : Except String String :=
  if lib.plotlyAvailable = false then
    .error "Plotly is not available. Install with: pip install plotly"
  else if chart_type = "line" then .ok (lib.pxLine df cfg)
  else if chart_type = "bar" then .ok (lib.pxBar df cfg)
  else if chart_type = "scatter" then .ok (lib.pxScatter df cfg)
  else if chart_type = "histogram" then .ok (lib.pxHistogram df cfg)
  else .error ("Unsupported Plotly chart type: " ++ chart_type)

/-- The dict returned by `save_figure` (and by the plotly branch of `main`):
`path` when written to a file, `data` when returned inline. -/
structure SaveResult where
  format : String
  path : Option String := none
  data : Option String := none
  size_bytes : Nat := 0
  deriving Repr, DecidableEq

/-- `save_figure` of visualize_helper.py.  Its PNG branch (line 329) passes
`dpi=config.get('dpi', 100)` to `savefig`, but no variable named `config`
exists in the scope of `save_figure` (the request `config` is a local of
`main`), so the branch raises a NameError before rendering anything.  The
Python message spells the variable in quotes; the quotes are elided here. -/
def save_figure (lib : VizLib T F C) (fig : F) (output_format : String)
    (output_path : Option String) : Except String SaveResult :=
  if output_format = "png" then
    .error "NameError: name config is not defined"
  else if output_format = "svg" then
    let svg := lib.renderSvg fig
    match output_path with
    | some p => .ok { format := "svg", path := some p, size_bytes := svg.length }
    | none => .ok { format := "svg", data := some svg, size_bytes := svg.length }
  else .error ("Unsupported output format: " ++ output_format)

/-- A visualize_helper request.  `plotly_type` is read from the `config` dict
(`config.get('plotly_type', 'line')`) and is lifted out of the abstract `C`;
`output_format`/`output_path` are the `output` dict entries (the format
defaults to png at the use site, as in `output.get('format', 'png')`). -/
structure Request (C : Type) where
  chart_type : String
  source : String
  source_type : String
  config : C
  plotly_type : String := "line"
  output_format : Option String := none
  output_path : Option String := none
  code : Option String := none

/-- The chart-kind dispatch in the matplotlib branch of `main` (lines
447-464).  The Python error for a missing custom code parameter quotes the
word code; the quotes are elided here. -/
def makeChart (lib : VizLib T F C) (req : Request C) (df : T) : Except String F :=
  if req.chart_type = "line" then .ok (lib.createLine df req.config)
  else if req.chart_type = "bar" then .ok (lib.createBar df req.config)
  else if req.chart_type = "scatter" then .ok (lib.createScatter df req.config)
  else if req.chart_type = "histogram" then .ok (lib.createHistogram df req.config)
  else if req.chart_type = "heatmap" then .ok (lib.createHeatmap df req.config)
  else if req.chart_type = "boxplot" then .ok (lib.createBoxplot df req.config)
  else if req.chart_type = "custom" then
    match req.code with
    | none => .error "Custom chart requires code parameter"
    | some c => .ok (lib.createCustom df c)
  else .error ("Unsupported chart type: " ++ req.chart_type)

/-- The `result` dict printed on success: the `save_figure` (or plotly)
payload plus the `chart_type` and `data_shape` metadata added at the end of
`main` (lines 474-479). -/
structure VizResult where
  format : String
  path : Option String := none
  data : Option String := none
  size_bytes : Nat := 0
  chart_type : String := ""
  rows : Nat := 0
  cols : Nat := 0
  deriving Repr, DecidableEq

/-- The body of `main` in visualize_helper.py inside its top-level `try`:
load the table, branch on plotly versus matplotlib, build and save the
chart, attach metadata. -/
def pipeline (lib : VizLib T F C) (req : Request C) : Except String VizResult := do
  let df ← load_data lib req.source req.source_type
  if req.chart_type = "plotly" then
    let html ← create_plotly_chart lib df req.plotly_type req.config
    let r : SaveResult :=
      match req.output_path with
      | some p => { format := "html", path := some p, size_bytes := html.length }
      | none => { format := "html", data := some html, size_bytes := html.length }
    pure
      { format := r.format, path := r.path, data := r.data
        size_bytes := r.size_bytes, chart_type := req.chart_type
        rows := lib.nrows df, cols := lib.ncols df }
  else
    let fig ← makeChart lib req df
    let r ← save_figure lib fig (req.output_format.getD "png") req.output_path
    pure
      { format := r.format, path := r.path, data := r.data
        size_bytes := r.size_bytes, chart_type := req.chart_type
        rows := lib.nrows df, cols := lib.ncols df }

/-- The printed response of visualize_helper.py (the error case also carries
a `traceback` field, not modelled). -/
structure VizResp where
  success : Bool
  result : Option VizResult := none
  error : Option String := none
  deriving Repr, DecidableEq

/-- `main` of visualize_helper.py: the whole request body sits in one
top-level `try`; any raise is printed as an error response and the process
exits 1, otherwise the result is printed and the process exits 0. -/
def process (lib : VizLib T F C) (req : Request C) : VizResp × Nat :=
  match pipeline lib req with
  | .ok r => ({ success := true, result := some r }, 0)
  | .error e => ({ success := false, error := some e }, 1)

end VisualizeHelper

/-! ### Concrete instantiations used to evaluate the embeddings -/

/-- A concrete scikit-learn stand-in over string-valued artifacts, used to
evaluate the registry embedding on concrete requests. -/
def mlDemoLib : MlHelper.Lib String String String :=
  { fitModel := fun r => "model " ++ r.model_id ++ " " ++ r.algorithm
    fitScaler := fun r => "scaler " ++ r.algorithm
    fitEncoder := fun r => "encoder " ++ r.algorithm
    trainMetrics := fun r => [("mse", r.test_size)]
    splitCounts := fun r => (r.X.length, 0)
    featureImportance := fun _ => none
    scalerTransform := fun _ m => m.map (fun row => row.map (fun x => x / 2))
    modelPredict := fun _ m => m.map (fun _ => 1)
    encoderTransform := fun _ y => y
    encoderInverse := fun _ y => y.map (fun x => x + 1)
    predictProba := fun _ _ => none
    metricsOf := fun _ _ _ => []
    gridSearch := fun _ => .ok ([("k", "3")], 9/10)
    loadFile := fun _ => .error "file not found" }

/-- A first concrete training request: scaling on, regression task. -/
def demoTrain₁ : MlHelper.TrainReq :=
  { X := [[1], [2]], y := [0, 1], algorithm := "linear_regression"
    model_id := "m", scale := true }

/-- A retraining request for the same identifier: scaling off. -/
def demoTrain₂ : MlHelper.TrainReq :=
  { X := [[3], [4]], y := [1, 0], algorithm := "random_forest"
    model_id := "m", scale := false }

/-- A concrete pandas stand-in on a counter, used to evaluate the transform
pipeline on concrete step lists. -/
def pandasDemoLib : AnalyzeHelper.PandasLib Nat Nat :=
  { query := fun _ n => n + 1
    selectCols := fun _ n => n + 2
    sortValues := fun _ _ n => n + 3
    groupbyAgg := fun _ _ n => n + 4
    renameWith := fun _ n => n + 5
    dropColumns := fun _ n => n + 6
    dropIndex := fun _ n => n + 7
    fillnaValue := fun v n => n + v
    fillnaMethod := fun _ n => n + 8
    astype := fun _ n => n + 9 }

/-- A concrete matplotlib/pandas stand-in over unit figures and tables, used
to evaluate the visualize pipeline on concrete requests. -/
def vizDemoLib : VisualizeHelper.VizLib Unit Unit Unit :=
  { readCsv := fun _ => ()
    readJson := fun _ => ()
    readParquet := fun _ => ()
    fromRecords := fun _ => ()
    nrows := fun _ => 2
    ncols := fun _ => 3
    plotlyAvailable := false
    pxLine := fun _ _ => "html"
    pxBar := fun _ _ => "html"
    pxScatter := fun _ _ => "html"
    pxHistogram := fun _ _ => "html"
    createLine := fun _ _ => ()
    createBar := fun _ _ => ()
    createScatter := fun _ _ => ()
    createHistogram := fun _ _ => ()
    createHeatmap := fun _ _ => ()
    createBoxplot := fun _ _ => ()
    createCustom := fun _ _ => ()
    renderSvg := fun _ => "svg-doc" }

/-! ### Lemmas about the embeddings -/

theorem dictGet_dictSet_self {α : Type} (d : List (String × α)) (k : String) (v : α) :
    dictGet (dictSet d k v) k = some v := by
  induction d with
  | nil => simp [dictSet, dictGet]
  | cons hd tl ih =>
    obtain ⟨k₁, v₁⟩ := hd
    by_cases h : k₁ = k
    · simp [dictSet, dictGet, h]
    · simp [dictSet, dictGet, h, ih]

theorem dictGet_dictSet_other {α : Type} (d : List (String × α)) (k k₂ : String) (v : α)
    (h : k₂ ≠ k) : dictGet (dictSet d k v) k₂ = dictGet d k₂ := by
  have h₀ : ¬ k = k₂ := fun hk => h hk.symm
  induction d with
  | nil => simp [dictSet, dictGet, h₀]
  | cons hd tl ih =>
    obtain ⟨k₁, v₁⟩ := hd
    by_cases h₁ : k₁ = k
    · subst h₁
      simp [dictSet, dictGet, h₀]
    · simp only [dictSet, if_neg h₁, dictGet]
      by_cases h₂ : k₁ = k₂
      · simp [h₂]
      · simp [h₂, ih]

theorem StatsHelper.sum_sq_expand (l : List ℚ) (c : ℚ) :
    (l.map (fun x => (x - c) ^ 2)).sum
      = (l.map (fun x => x ^ 2)).sum - 2 * c * l.sum + l.length * c ^ 2 := by
  induction l with
  | nil => simp
  | cons a tl ih =>
    simp only [List.map_cons, List.sum_cons, List.length_cons, ih]
    push_cast
    ring

theorem StatsHelper.sum_sq_nonneg (l : List ℚ) (c : ℚ) :
    0 ≤ (l.map (fun x => (x - c) ^ 2)).sum := by
  induction l with
  | nil => simp
  | cons a tl ih =>
    simp only [List.map_cons, List.sum_cons]
    have h := sq_nonneg (a - c)
    linarith

theorem StatsHelper.group_decomp (g : List ℚ) (c : ℚ) (h : g ≠ []) :
    (g.map (fun x => (x - c) ^ 2)).sum
      = (g.map (fun x => (x - StatsHelper.mean g) ^ 2)).sum
        + g.length * (StatsHelper.mean g - c) ^ 2 := by
  have hn : (g.length : ℚ) ≠ 0 := by
    have : g.length ≠ 0 := fun h₀ => h (List.length_eq_zero.mp h₀)
    exact_mod_cast this
  rw [StatsHelper.sum_sq_expand g c, StatsHelper.sum_sq_expand g (StatsHelper.mean g)]
  unfold StatsHelper.mean
  field_simp
  ring

theorem StatsHelper.ss_between_nonneg (groups : List (List ℚ)) (gm : ℚ) :
    0 ≤ StatsHelper.ss_between groups gm := by
  induction groups with
  | nil => simp [StatsHelper.ss_between]
  | cons g tl ih =>
    simp only [StatsHelper.ss_between, List.map_cons, List.sum_cons] at ih ⊢
    have h₁ : (0 : ℚ) ≤ (g.length : ℚ) * (StatsHelper.mean g - gm) ^ 2 :=
      mul_nonneg (by positivity) (sq_nonneg _)
    linarith

theorem StatsHelper.ss_between_le_ss_total (groups : List (List ℚ)) (gm : ℚ)
    (h : ∀ g ∈ groups, g ≠ []) :
    StatsHelper.ss_between groups gm ≤ StatsHelper.ss_total groups gm := by
  induction groups with
  | nil => simp [StatsHelper.ss_between, StatsHelper.ss_total]
  | cons g tl ih =>
    have hg : g ≠ [] := h g (by simp)
    have htl : ∀ g₁ ∈ tl, g₁ ≠ [] := fun g₁ hm => h g₁ (by simp [hm])
    have hd := StatsHelper.group_decomp g gm hg
    have hnn := StatsHelper.sum_sq_nonneg g (StatsHelper.mean g)
    have hih := ih htl
    simp only [StatsHelper.ss_between, StatsHelper.ss_total, List.map_cons,
      List.sum_cons] at hih hd ⊢
    linarith

/-! ### Claim theorems -/

/-- C5: a Cohen's d whose absolute value is exactly 0.2 is classified small,
exactly 0.5 medium, exactly 0.8 large — each stated threshold lands in the
adjacent upper bucket, the strict comparisons keeping values just below a
threshold in the lower bucket (negligible, small, medium respectively). -/
theorem claim_C5 :
    StatsHelper.interpret_cohens_d (2/10) = "small" ∧
    StatsHelper.interpret_cohens_d (5/10) = "medium" ∧
    StatsHelper.interpret_cohens_d (8/10) = "large" ∧
    StatsHelper.interpret_cohens_d (-2/10) = "small" ∧
    StatsHelper.interpret_cohens_d (-5/10) = "medium" ∧
    StatsHelper.interpret_cohens_d (-8/10) = "large" ∧
    StatsHelper.interpret_cohens_d (19/100) = "negligible" ∧
    StatsHelper.interpret_cohens_d (49/100) = "small" ∧
    StatsHelper.interpret_cohens_d (79/100) = "medium" := by
  norm_num [StatsHelper.interpret_cohens_d, abs]

/-- C6 counterexample: the correlation handler's effect-size interpretation
uses the vocabulary weak/moderate/strong, not the four buckets
negligible/small/medium/large the claim asserts for every test handler; and
the ANOVA handler's eta-squared interpretation has no negligible bucket
(an eta squared of 0 is already classified small). -/
theorem claim_C6_counterexample :
    StatsHelper.interpret_correlation (1/2) = "moderate" ∧
    "moderate" ∉ ["negligible", "small", "medium", "large"] ∧
    StatsHelper.anovaEtaInterp 0 = "small" ∧
    StatsHelper.anovaEtaInterp 0 ≠ "negligible" := by
  refine ⟨?_, by decide, by norm_num [StatsHelper.anovaEtaInterp], ?_⟩
  · norm_num [StatsHelper.interpret_correlation, abs]
  · norm_num [StatsHelper.anovaEtaInterp]
    decide

/-- C6 amended: the t-test (Cohen's d), chi-square (Cramér's V) and
Mann-Whitney (rank-biserial) handlers classify their effect sizes into the
four buckets negligible/small/medium/large with fixed thresholds, but the
correlation handler classifies into weak/moderate/strong and the ANOVA
handler only into small/medium/large. -/
theorem claim_C6 : ∀ d v rb c e : ℚ,
    StatsHelper.interpret_cohens_d d ∈ ["negligible", "small", "medium", "large"] ∧
    StatsHelper.interpret_cramers_v v ∈ ["negligible", "small", "medium", "large"] ∧
    StatsHelper.interpret_rank_biserial rb ∈ ["negligible", "small", "medium", "large"] ∧
    StatsHelper.interpret_correlation c ∈ ["weak", "moderate", "strong"] ∧
    StatsHelper.anovaEtaInterp e ∈ ["small", "medium", "large"] := by
  intro d v rb c e
  refine ⟨?_, ?_, ?_, ?_, ?_⟩
  · simp only [StatsHelper.interpret_cohens_d]
    split_ifs <;> simp
  · simp only [StatsHelper.interpret_cramers_v]
    split_ifs <;> simp
  · simp only [StatsHelper.interpret_rank_biserial]
    split_ifs <;> simp
  · simp only [StatsHelper.interpret_correlation]
    split_ifs <;> simp
  · simp only [StatsHelper.anovaEtaInterp]
    split_ifs <;> simp

/-- C7: for every ANOVA request with exactly three groups of five numbers
each, the response carries the library statistic and p-value, between-group
degrees of freedom 2, within-group degrees of freedom 12, and an eta-squared
in the closed interval from 0 to 1. -/
theorem claim_C7 : ∀ (fOneway : List (List ℚ) → ℚ × ℚ) (groups : List (List ℚ)),
    groups.length = 3 → (∀ g ∈ groups, g.length = 5) →
    (StatsHelper.anova fOneway groups).df_between = 2 ∧
    (StatsHelper.anova fOneway groups).df_within = 12 ∧
    0 ≤ (StatsHelper.anova fOneway groups).eta_squared ∧
    (StatsHelper.anova fOneway groups).eta_squared ≤ 1 ∧
    (StatsHelper.anova fOneway groups).statistic = (fOneway groups).1 ∧
    (StatsHelper.anova fOneway groups).pvalue = (fOneway groups).2 ∧
    (StatsHelper.anova fOneway groups).success = true := by
  intro fOneway groups h₃ h₅
  have hne : ∀ g ∈ groups, g ≠ [] := by
    intro g hg h₀
    have := h₅ g hg
    rw [h₀] at this
    simp at this
  have hb := StatsHelper.ss_between_nonneg groups (StatsHelper.mean groups.flatten)
  have hle := StatsHelper.ss_between_le_ss_total groups (StatsHelper.mean groups.flatten) hne
  obtain ⟨a, b, c, rfl⟩ := List.length_eq_three.mp h₃
  have ha := h₅ a (by simp)
  have hbl := h₅ b (by simp)
  have hc := h₅ c (by simp)
  refine ⟨?_, ?_, ?_, ?_, rfl, rfl, rfl⟩
  · simp [StatsHelper.anova]
  · simp [StatsHelper.anova, ha, hbl, hc]
  · simp only [StatsHelper.anova]
    split_ifs with hpos
    · exact div_nonneg hb (le_of_lt hpos)
    · exact le_refl 0
  · simp only [StatsHelper.anova]
    split_ifs with hpos
    · rw [div_le_one hpos]
      exact hle
    · exact zero_le_one

/-- Witness for C7 at a concrete three-by-five request. -/
theorem claim_C7_witness :
    ([[1, 2, 3, 4, 5], [2, 3, 4, 5, 6], [10, 10, 10, 10, 10]] : List (List ℚ)).length = 3 ∧
    (StatsHelper.anova (fun _ => (7, 1/100))
        [[1, 2, 3, 4, 5], [2, 3, 4, 5, 6], [10, 10, 10, 10, 10]]).df_between = 2 ∧
    (StatsHelper.anova (fun _ => (7, 1/100))
        [[1, 2, 3, 4, 5], [2, 3, 4, 5, 6], [10, 10, 10, 10, 10]]).df_within = 12 ∧
    0 ≤ (StatsHelper.anova (fun _ => (7, 1/100))
        [[1, 2, 3, 4, 5], [2, 3, 4, 5, 6], [10, 10, 10, 10, 10]]).eta_squared ∧
    (StatsHelper.anova (fun _ => (7, 1/100))
        [[1, 2, 3, 4, 5], [2, 3, 4, 5, 6], [10, 10, 10, 10, 10]]).eta_squared ≤ 1 := by
  have h := claim_C7 (fun _ => (7, 1/100))
    [[1, 2, 3, 4, 5], [2, 3, 4, 5, 6], [10, 10, 10, 10, 10]] (by decide) (by decide)
  exact ⟨by decide, h.1, h.2.1, h.2.2.1, h.2.2.2.1⟩

/-- C1 counterexample: a stats_helper request whose handler raises is printed
as an error response but the process exits 0, not 1 — each stats/ml/export
handler catches its own exceptions, so the top-level catch (and its
`sys.exit(1)`) is never reached from a handler. -/
theorem claim_C1_counterexample :
    StatsHelper.run (fun _ => Except.error "KeyError: group1") (Except.ok "ttest") =
      ({ success := false, error := some "KeyError: group1" }, 0) ∧
    (StatsHelper.run (fun _ => Except.error "KeyError: group1") (Except.ok "ttest")).2 ≠ 1 := by
  constructor
  · rfl
  · decide

/-- C1 amended: a request whose handler raises always yields a printed
response with success false carrying the message, but the exit code is 1
only in the analyze and visualize helpers, whose exceptions propagate to the
top-level catch; in the stats, ml and export helpers the handler catches its
own exception and the process exits 0. -/
theorem claim_C1 :
    (∀ (bodies : StatsHelper.Tag → Except String Resp) (t : String)
        (h : StatsHelper.Tag) (e : String),
      StatsHelper.route t = some h → bodies h = .error e →
      StatsHelper.run bodies (.ok t) = ({ success := false, error := some e }, 0)) ∧
    (∀ (bodies : MlHelper.Tag → Except String Resp) (a : String)
        (h : MlHelper.Tag) (e : String),
      MlHelper.route a = some h → bodies h = .error e →
      MlHelper.run bodies (.ok a) = ({ success := false, error := some e }, 0)) ∧
    (∀ (bodies : ExportHelper.Tag → Except String Resp) (t : String)
        (h : ExportHelper.Tag) (e : String),
      ExportHelper.route t = some h → bodies h = .error e →
      ExportHelper.run bodies (.ok t) = ({ success := false, error := some e }, 0)) ∧
    (∀ (bodies : AnalyzeHelper.Tag → Except String Resp) (a : String)
        (h : AnalyzeHelper.Tag) (e : String),
      AnalyzeHelper.route a = some h → bodies h = .error e →
      AnalyzeHelper.run bodies (.ok a) = ({ success := false, error := some e }, 1)) ∧
    (∀ {T F C : Type} (lib : VisualizeHelper.VizLib T F C)
        (req : VisualizeHelper.Request C) (e : String),
      VisualizeHelper.pipeline lib req = .error e →
      VisualizeHelper.process lib req = ({ success := false, error := some e }, 1)) := by
  refine ⟨?_, ?_, ?_, ?_, ?_⟩
  · intro bodies t h e hr hb
    simp [StatsHelper.run, hr, StatsHelper.handlerRun, hb]
  · intro bodies a h e hr hb
    simp [MlHelper.run, hr, StatsHelper.handlerRun, hb]
  · intro bodies t h e hr hb
    simp [ExportHelper.run, hr, StatsHelper.handlerRun, hb]
  · intro bodies a h e hr hb
    simp [AnalyzeHelper.run, hr, hb]
  · intro T F C lib req e hp
    simp [VisualizeHelper.process, hp]

/-- Witness for C1 amended: a raising handler body in the stats helper exits
0, the same in the analyze helper exits 1. -/
theorem claim_C1_witness :
    StatsHelper.run (fun _ => Except.error "boom") (Except.ok "anova") =
      ({ success := false, error := some "boom" }, 0) ∧
    AnalyzeHelper.run (fun _ => Except.error "boom") (Except.ok "transform") =
      ({ success := false, error := some "boom" }, 1) :=
  ⟨claim_C1.1 _ "anova" .anova "boom" rfl rfl,
   claim_C1.2.2.2.1 _ "transform" .transform "boom" rfl rfl⟩

/-- C2: the stats and ml routers map each supported discriminator to exactly
its documented handler and call at most one handler per request; an
unrecognized discriminator yields a response with success false whose error
message names the unrecognized value. -/
theorem claim_C2 :
    (StatsHelper.route "ttest" = some .ttest ∧
     StatsHelper.route "anova" = some .anova ∧
     StatsHelper.route "chi_square" = some .chi_square ∧
     StatsHelper.route "correlation" = some .correlation ∧
     StatsHelper.route "regression" = some .regression ∧
     StatsHelper.route "mann_whitney" = some .mann_whitney) ∧
    (MlHelper.route "train" = some .train ∧
     MlHelper.route "predict" = some .predict ∧
     MlHelper.route "evaluate" = some .evaluate ∧
     MlHelper.route "tune" = some .tune ∧
     MlHelper.route "explain" = some .explain ∧
     MlHelper.route "save" = some .save ∧
     MlHelper.route "load" = some .load) ∧
    (∀ (t : String) (h : StatsHelper.Tag),
      StatsHelper.route t = some h → StatsHelper.callsOf t = [h]) ∧
    (∀ t : String, (StatsHelper.callsOf t).length ≤ 1) ∧
    (∀ (a : String) (h : MlHelper.Tag),
      MlHelper.route a = some h → MlHelper.callsOf a = [h]) ∧
    (∀ a : String, (MlHelper.callsOf a).length ≤ 1) ∧
    (∀ (t : String) (bodies : StatsHelper.Tag → Except String Resp),
      StatsHelper.route t = none →
      StatsHelper.run bodies (.ok t) =
        ({ success := false, error := some ("Unknown test type: " ++ t) }, 0)) ∧
    (∀ (a : String) (bodies : MlHelper.Tag → Except String Resp),
      MlHelper.route a = none →
      MlHelper.run bodies (.ok a) =
        ({ success := false, error := some ("Unknown action: " ++ a) }, 0)) := by
  refine ⟨⟨rfl, rfl, rfl, rfl, rfl, rfl⟩, ⟨rfl, rfl, rfl, rfl, rfl, rfl, rfl⟩,
    ?_, ?_, ?_, ?_, ?_, ?_⟩
  · intro t h hr
    simp [StatsHelper.callsOf, hr]
  · intro t
    cases hr : StatsHelper.route t <;> simp [StatsHelper.callsOf, hr]
  · intro a h hr
    simp [MlHelper.callsOf, hr]
  · intro a
    cases hr : MlHelper.route a <;> simp [MlHelper.callsOf, hr]
  · intro t bodies hr
    simp [StatsHelper.run, hr]
  · intro a bodies hr
    simp [MlHelper.run, hr]

/-- Witness for C2 at unrecognized discriminators. -/
theorem claim_C2_witness :
    StatsHelper.run (fun _ => Except.ok { success := true }) (Except.ok "bogus") =
      ({ success := false, error := some "Unknown test type: bogus" }, 0) ∧
    MlHelper.run (fun _ => Except.ok { success := true }) (Except.ok "frobnicate") =
      ({ success := false, error := some "Unknown action: frobnicate" }, 0) ∧
    StatsHelper.callsOf "anova" = [.anova] :=
  ⟨claim_C2.2.2.2.2.2.2.1 "bogus" _ rfl,
   claim_C2.2.2.2.2.2.2.2 "frobnicate" _ rfl,
   claim_C2.2.2.1 "anova" .anova rfl⟩

/-- C3: `predict` against an identifier with no registry entry returns
success false with the message naming the identifier after the words
Model not found; and a second `train` under the same identifier replaces the
stored model and metadata with those of the second training and reports only
the second training's metrics (its response does not depend on the registry
state left by the first training at all). -/
theorem claim_C3 : ∀ {M S E : Type} (lib : MlHelper.Lib M S E)
    (mgr : MlHelper.Manager M S E) (preq : MlHelper.PredictReq)
    (r₁ r₂ : MlHelper.TrainReq),
    (dictGet mgr.models preq.model_id = none →
      MlHelper.predict lib mgr preq =
        { success := false, error := some ("Model not found: " ++ preq.model_id) }) ∧
    (r₁.model_id = r₂.model_id →
      dictGet ((MlHelper.train lib ((MlHelper.train lib mgr r₁).1) r₂).1).models
          r₂.model_id = some (lib.fitModel r₂) ∧
      dictGet ((MlHelper.train lib ((MlHelper.train lib mgr r₁).1) r₂).1).metadata
          r₂.model_id = some (MlHelper.metadataOf r₂) ∧
      ((MlHelper.train lib ((MlHelper.train lib mgr r₁).1) r₂).2).metrics
          = lib.trainMetrics r₂ ∧
      (MlHelper.train lib ((MlHelper.train lib mgr r₁).1) r₂).2
          = (MlHelper.train lib mgr r₂).2) := by
  intro M S E lib mgr preq r₁ r₂
  constructor
  · intro hnone
    simp [MlHelper.predict, hnone]
  · intro _
    refine ⟨?_, ?_, rfl, rfl⟩
    · simp [MlHelper.train, MlHelper.save_model, dictGet_dictSet_self]
    · simp [MlHelper.train, MlHelper.save_model, dictGet_dictSet_self]

/-- Witness for C3 with the concrete library stand-in: a predict against the
never-trained identifier ghost, and a retrain of identifier m. -/
theorem claim_C3_witness :
    dictGet ({} : MlHelper.Manager String String String).models "ghost" = none ∧
    MlHelper.predict mlDemoLib {} { X := [], model_id := "ghost" } =
      { success := false, error := some "Model not found: ghost" } ∧
    demoTrain₁.model_id = demoTrain₂.model_id ∧
    dictGet ((MlHelper.train mlDemoLib
        ((MlHelper.train mlDemoLib {} demoTrain₁).1) demoTrain₂).1).models "m"
      = some (mlDemoLib.fitModel demoTrain₂) ∧
    dictGet ((MlHelper.train mlDemoLib
        ((MlHelper.train mlDemoLib {} demoTrain₁).1) demoTrain₂).1).metadata "m"
      = some (MlHelper.metadataOf demoTrain₂) := by
  have h := claim_C3 mlDemoLib {} { X := [], model_id := "ghost" } demoTrain₁ demoTrain₂
  have h₂ := h.2 rfl
  exact ⟨rfl, h.1 rfl, rfl, h₂.1, h₂.2.1⟩

/-- C9: the `tune` action never modifies the registry — for every tune
request, whether the grid search succeeds or raises, all four maps of the
`model_manager` are identical before and after the dispatched call, and the
response is exactly the registry-independent tune response. -/
theorem claim_C9 : ∀ {M S E : Type} (lib : MlHelper.Lib M S E)
    (mgr : MlHelper.Manager M S E) (r : MlHelper.TuneReq),
    ((MlHelper.applyAction lib mgr (.tuneR r)).1).models = mgr.models ∧
    ((MlHelper.applyAction lib mgr (.tuneR r)).1).scalers = mgr.scalers ∧
    ((MlHelper.applyAction lib mgr (.tuneR r)).1).encoders = mgr.encoders ∧
    ((MlHelper.applyAction lib mgr (.tuneR r)).1).metadata = mgr.metadata ∧
    (MlHelper.applyAction lib mgr (.tuneR r)).2 = .tuneO (MlHelper.tune lib r) := by
  intro M S E lib mgr r
  exact ⟨rfl, rfl, rfl, rfl, rfl⟩

/-- C10: retraining under an existing identifier does not replace the
preprocessing companions.  First part: train with scaling on, retrain with
scaling off — the scaler fitted by the first training stays registered and a
subsequent predict applies that stale scaler to its input.  Second part: the
same for the label encoder when the first training is a classification and
the second is not. -/
theorem claim_C10 : ∀ {M S E : Type} (lib : MlHelper.Lib M S E)
    (mgr : MlHelper.Manager M S E) (r₁ r₂ : MlHelper.TrainReq)
    (X : MlHelper.Mat),
    (r₁.model_id = r₂.model_id → r₁.scale = true → r₂.scale = false →
      r₁.task_type ≠ "classification" → r₂.task_type ≠ "classification" →
      dictGet mgr.encoders r₂.model_id = none →
      dictGet ((MlHelper.train lib ((MlHelper.train lib mgr r₁).1) r₂).1).scalers
          r₂.model_id = some (lib.fitScaler r₁) ∧
      MlHelper.predict lib ((MlHelper.train lib ((MlHelper.train lib mgr r₁).1) r₂).1)
          { X := X, model_id := r₂.model_id } =
        { success := true
          predictions := lib.modelPredict (lib.fitModel r₂)
            (lib.scalerTransform (lib.fitScaler r₁) X)
          probabilities := lib.predictProba (lib.fitModel r₂)
            (lib.scalerTransform (lib.fitScaler r₁) X)
          n_predictions := (lib.modelPredict (lib.fitModel r₂)
            (lib.scalerTransform (lib.fitScaler r₁) X)).length }) ∧
    (r₁.model_id = r₂.model_id → r₁.task_type = "classification" →
      r₂.task_type ≠ "classification" → r₁.scale = false → r₂.scale = false →
      dictGet mgr.scalers r₂.model_id = none →
      dictGet ((MlHelper.train lib ((MlHelper.train lib mgr r₁).1) r₂).1).encoders
          r₂.model_id = some (lib.fitEncoder r₁) ∧
      MlHelper.predict lib ((MlHelper.train lib ((MlHelper.train lib mgr r₁).1) r₂).1)
          { X := X, model_id := r₂.model_id } =
        { success := true
          predictions := lib.encoderInverse (lib.fitEncoder r₁)
            (lib.modelPredict (lib.fitModel r₂) X)
          probabilities := lib.predictProba (lib.fitModel r₂) X
          n_predictions := (lib.encoderInverse (lib.fitEncoder r₁)
            (lib.modelPredict (lib.fitModel r₂) X)).length }) := by
  intro M S E lib mgr r₁ r₂ X
  constructor
  · intro hid h₁ h₂ ht₁ ht₂ henc
    have hsca : dictGet ((MlHelper.train lib ((MlHelper.train lib mgr r₁).1) r₂).1).scalers
        r₂.model_id = some (lib.fitScaler r₁) := by
      simp only [MlHelper.train, MlHelper.save_model, h₁, h₂, if_true, if_false,
        Bool.false_eq_true, ite_false, ite_true, if_neg ht₁, if_neg ht₂]
      rw [← hid, dictGet_dictSet_self]
    have hmod : dictGet ((MlHelper.train lib ((MlHelper.train lib mgr r₁).1) r₂).1).models
        r₂.model_id = some (lib.fitModel r₂) := by
      simp [MlHelper.train, MlHelper.save_model, dictGet_dictSet_self]
    have henc₂ : dictGet ((MlHelper.train lib ((MlHelper.train lib mgr r₁).1) r₂).1).encoders
        r₂.model_id = none := by
      simp only [MlHelper.train, MlHelper.save_model, if_neg ht₁, if_neg ht₂]
      exact henc
    refine ⟨hsca, ?_⟩
    simp [MlHelper.predict, hmod, hsca, henc₂]
  · intro hid ht₁ ht₂ h₁ h₂ hsca
    have henc : dictGet ((MlHelper.train lib ((MlHelper.train lib mgr r₁).1) r₂).1).encoders
        r₂.model_id = some (lib.fitEncoder r₁) := by
      simp only [MlHelper.train, MlHelper.save_model, if_pos ht₁, if_neg ht₂]
      rw [← hid, dictGet_dictSet_self]
    have hmod : dictGet ((MlHelper.train lib ((MlHelper.train lib mgr r₁).1) r₂).1).models
        r₂.model_id = some (lib.fitModel r₂) := by
      simp [MlHelper.train, MlHelper.save_model, dictGet_dictSet_self]
    have hsca₂ : dictGet ((MlHelper.train lib ((MlHelper.train lib mgr r₁).1) r₂).1).scalers
        r₂.model_id = none := by
      simp only [MlHelper.train, MlHelper.save_model, h₁, h₂, Bool.false_eq_true,
        ite_false]
      exact hsca
    refine ⟨henc, ?_⟩
    simp [MlHelper.predict, hmod, hsca₂, henc]

/-- Witness for C10 with the concrete library stand-in: train m with scaling,
retrain m without, then predict against m. -/
theorem claim_C10_witness :
    demoTrain₁.scale = true ∧ demoTrain₂.scale = false ∧
    demoTrain₁.task_type ≠ "classification" ∧
    dictGet ({} : MlHelper.Manager String String String).encoders "m" = none ∧
    dictGet ((MlHelper.train mlDemoLib
        ((MlHelper.train mlDemoLib {} demoTrain₁).1) demoTrain₂).1).scalers "m"
      = some (mlDemoLib.fitScaler demoTrain₁) ∧
    MlHelper.predict mlDemoLib
        ((MlHelper.train mlDemoLib ((MlHelper.train mlDemoLib {} demoTrain₁).1)
          demoTrain₂).1) { X := [[10]], model_id := "m" } =
      { success := true
        predictions := mlDemoLib.modelPredict (mlDemoLib.fitModel demoTrain₂)
          (mlDemoLib.scalerTransform (mlDemoLib.fitScaler demoTrain₁) [[10]])
        probabilities := mlDemoLib.predictProba (mlDemoLib.fitModel demoTrain₂)
          (mlDemoLib.scalerTransform (mlDemoLib.fitScaler demoTrain₁) [[10]])
        n_predictions := (mlDemoLib.modelPredict (mlDemoLib.fitModel demoTrain₂)
          (mlDemoLib.scalerTransform (mlDemoLib.fitScaler demoTrain₁) [[10]])).length } := by
  have h := (claim_C10 mlDemoLib {} demoTrain₁ demoTrain₂ [[10]]).1
    rfl rfl rfl (by decide) (by decide) rfl
  exact ⟨rfl, rfl, by decide, rfl, h.1, h.2⟩

theorem AnalyzeHelper.applyTransform_ok_of_supported {T V : Type}
    (lib : AnalyzeHelper.PandasLib T V) (d : T) (t : AnalyzeHelper.TStep V)
    (h : t.operation ∈ AnalyzeHelper.supportedOps) :
    ∃ d₁, AnalyzeHelper.applyTransform lib d t = .ok d₁ := by
  simp only [AnalyzeHelper.supportedOps, List.mem_cons, List.mem_singleton,
    List.not_mem_nil, or_false] at h
  rcases h with h | h | h | h | h | h | h | h <;>
    simp [AnalyzeHelper.applyTransform, h]

theorem AnalyzeHelper.applyTransform_unsupported {T V : Type}
    (lib : AnalyzeHelper.PandasLib T V) (d : T) (t : AnalyzeHelper.TStep V)
    (h : t.operation ∉ AnalyzeHelper.supportedOps) :
    AnalyzeHelper.applyTransform lib d t
      = .error ("Unsupported transformation: " ++ t.operation) := by
  simp only [AnalyzeHelper.supportedOps, List.mem_cons, List.mem_singleton,
    not_or] at h
  obtain ⟨h₁, h₂, h₃, h₄, h₅, h₆, h₇, h₈, -⟩ := h
  simp [AnalyzeHelper.applyTransform, h₁, h₂, h₃, h₄, h₅, h₆, h₇, h₈]

/-- C8: the transform handler applies the steps strictly left to right —
running steps a then b equals applying b to the output of a — and the first
step whose operation name is not one of the eight supported names makes the
whole request fail with an error naming that operation. -/
theorem claim_C8 :
    (∀ {T V : Type} (lib : AnalyzeHelper.PandasLib T V) (df : T)
        (a b : AnalyzeHelper.TStep V),
      AnalyzeHelper.transform_data lib df [a, b]
        = (AnalyzeHelper.applyTransform lib df a).bind
            (fun d => AnalyzeHelper.applyTransform lib d b)) ∧
    (∀ {T V : Type} (lib : AnalyzeHelper.PandasLib T V) (df : T)
        (t : AnalyzeHelper.TStep V) (rest : List (AnalyzeHelper.TStep V)),
      AnalyzeHelper.transform_data lib df (t :: rest)
        = (AnalyzeHelper.applyTransform lib df t).bind
            (fun d => AnalyzeHelper.transform_data lib d rest)) ∧
    (∀ {T V : Type} (lib : AnalyzeHelper.PandasLib T V) (df : T)
        (pre : List (AnalyzeHelper.TStep V)) (s : AnalyzeHelper.TStep V)
        (post : List (AnalyzeHelper.TStep V)),
      (∀ t ∈ pre, t.operation ∈ AnalyzeHelper.supportedOps) →
      s.operation ∉ AnalyzeHelper.supportedOps →
      AnalyzeHelper.transform_data lib df (pre ++ s :: post)
        = .error ("Unsupported transformation: " ++ s.operation)) ∧
    AnalyzeHelper.supportedOps.length = 8 := by
  have hcons : ∀ {T V : Type} (lib : AnalyzeHelper.PandasLib T V) (df : T)
      (t : AnalyzeHelper.TStep V) (rest : List (AnalyzeHelper.TStep V)),
      AnalyzeHelper.transform_data lib df (t :: rest)
        = (AnalyzeHelper.applyTransform lib df t).bind
            (fun d => AnalyzeHelper.transform_data lib d rest) := by
    intro T V lib df t rest
    cases h : AnalyzeHelper.applyTransform lib df t <;>
      simp [AnalyzeHelper.transform_data, h, Except.bind]
  refine ⟨?_, hcons, ?_, rfl⟩
  · intro T V lib df a b
    rw [hcons]
    cases h : AnalyzeHelper.applyTransform lib df a <;>
      cases AnalyzeHelper.applyTransform lib df b <;>
        simp [AnalyzeHelper.transform_data, Except.bind] <;>
          cases hb : AnalyzeHelper.applyTransform lib _ b <;>
            simp [AnalyzeHelper.transform_data, hb]
  · intro T V lib df pre s post hpre hs
    induction pre generalizing df with
    | nil =>
      simp only [List.nil_append]
      rw [hcons, AnalyzeHelper.applyTransform_unsupported lib df s hs]
      rfl
    | cons p tl ih =>
      obtain ⟨d₁, hd₁⟩ :=
        AnalyzeHelper.applyTransform_ok_of_supported lib df p (hpre p (by simp))
      have htl : ∀ t ∈ tl, t.operation ∈ AnalyzeHelper.supportedOps :=
        fun t ht => hpre t (by simp [ht])
      simp only [List.cons_append]
      rw [hcons, hd₁]
      exact ih d₁ htl

/-- Witness for C8: a supported sort step followed by an unrecognized
explode step fails naming explode. -/
theorem claim_C8_witness :
    "sort" ∈ AnalyzeHelper.supportedOps ∧
    "explode" ∉ AnalyzeHelper.supportedOps ∧
    AnalyzeHelper.transform_data pandasDemoLib 0
        [{ operation := "sort" }, { operation := "explode" }]
      = .error "Unsupported transformation: explode" := by
  refine ⟨by decide, by decide, ?_⟩
  exact claim_C8.2.2.1 pandasDemoLib 0 [{ operation := "sort" }]
    { operation := "explode" } [] (by decide) (by decide)

theorem exceptBind_ok {ε α β : Type} (a : α) (f : α → Except ε β) :
    (Except.ok a : Except ε α) >>= f = f a := rfl

/-- C4 (code bug): for every fixed chart kind with a valid source, the
raster path — PNG, which is also the default output format — fails: the PNG
branch of `save_figure` references the undefined name config and raises a
NameError, so the process prints an error response and exits 1.  Only the
vector (SVG) format behaves as the claim describes, producing a successful
response describing the image. -/
theorem claim_C4 :
    (∀ {T F C : Type} (lib : VisualizeHelper.VizLib T F C)
        (req : VisualizeHelper.Request C),
      req.chart_type ∈ ["line", "bar", "scatter", "histogram", "heatmap", "boxplot"] →
      req.source_type = "csv" →
      req.output_format.getD "png" = "png" →
      VisualizeHelper.process lib req =
        ({ success := false
           error := some "NameError: name config is not defined" }, 1)) ∧
    (∀ {T F C : Type} (lib : VisualizeHelper.VizLib T F C)
        (req : VisualizeHelper.Request C),
      req.chart_type ∈ ["line", "bar", "scatter", "histogram", "heatmap", "boxplot"] →
      req.source_type = "csv" →
      req.output_format = some "svg" →
      (VisualizeHelper.process lib req).2 = 0 ∧
      ∃ r, (VisualizeHelper.process lib req).1 = { success := true, result := some r } ∧
        r.format = "svg") := by
  constructor
  · intro T F C lib req hmem hsrc hfmt
    simp only [List.mem_cons, List.not_mem_nil, or_false] at hmem
    rcases hmem with hct | hct | hct | hct | hct | hct <;>
      simp [VisualizeHelper.process, VisualizeHelper.pipeline,
        VisualizeHelper.load_data, VisualizeHelper.makeChart,
        VisualizeHelper.save_figure, hsrc, hct, hfmt, exceptBind_ok]
  · intro T F C lib req hmem hsrc hfmt
    simp only [List.mem_cons, List.not_mem_nil, or_false] at hmem
    rcases hmem with hct | hct | hct | hct | hct | hct <;>
      cases hp : req.output_path <;>
        simp [VisualizeHelper.process, VisualizeHelper.pipeline,
          VisualizeHelper.load_data, VisualizeHelper.makeChart,
          VisualizeHelper.save_figure, hsrc, hct, hfmt, hp, exceptBind_ok]

/-- Witness for C4: a concrete line-chart request over a csv source with the
default output format fails with the NameError and exits 1; the same request
with svg output succeeds. -/
theorem claim_C4_witness :
    VisualizeHelper.process vizDemoLib
        { chart_type := "line", source := "d.csv", source_type := "csv", config := () } =
      ({ success := false, error := some "NameError: name config is not defined" }, 1) ∧
    (VisualizeHelper.process vizDemoLib
        { chart_type := "line", source := "d.csv", source_type := "csv", config := ()
          output_format := some "svg" }).2 = 0 := by
  constructor
  · exact claim_C4.1 vizDemoLib _ (by decide) rfl rfl
  · exact (claim_C4.2 vizDemoLib _ (by decide) rfl rfl).1
